import Mathlib

/-!
Shallow embedding of the datachart configuration-translation layer
(`datachart/utils/attrs.py`, `src/utils/attrs.py`, `src/utils/charts.py`)
and proofs about its attribute resolution, style builders, subplot layout,
tick configuration, drawing-config validation, color assignment and
histogram drawing.

Python dictionaries are modelled as association lists in insertion order;
Python `None` is the value `PyVal.none`, distinct from a key being absent.
A raised Python exception (KeyError, AssertionError, numpy errors) is an
`Except.error`.
-/

set_option linter.unusedVariables false

/-- Python-style primitive values appearing in style mappings and
configuration entries: `None`, booleans, integers and strings (the kinds of
value the library's styles and configuration paths carry). -/
inductive PyVal where
  | none
  | bool (b : Bool)
  | int (n : Int)
  | str (s : String)
deriving DecidableEq, Repr

/-- A Python dictionary with string keys: an association list in insertion
order.  The global `config` object is also of this shape (its dotted-path
keys map to primitive values). -/
abbrev PyDict := List (String × PyVal)

/-- Python truthiness of a value (`bool(v)`): `None`, `False`, `0`, the empty
string, and empty containers are falsy; everything else is truthy. -/
def pyTruthy : PyVal → Bool
  | PyVal.none => false
  | PyVal.bool b => b
  | PyVal.int n => n != 0
  | PyVal.str s => s != ""

/-- The `default` argument of `get_attr_value`: either mapping-like (a
`Config` object or a `dict`, both indexed with `default[attr]`, which raises
`KeyError` on a missing key) or a plain scalar.  The `Config` class itself is
not part of the sources; following the spec, a `Config` behaves as a mapping
whose item access fails on a missing key, so both mapping-like cases share
one constructor. -/
inductive PyDefault where
  | mapping (d : PyDict)
  | scalar (v : PyVal)
deriving DecidableEq, Repr

/-- Embeds `get_attr_value(attr, obj, default)` from `utils/attrs.py`:
`if isinstance(default, Config) or isinstance(default, dict): return
obj.get(attr, default[attr])` else `return obj.get(attr, default)`.
Python evaluates the argument `default[attr]` before calling `obj.get`, so a
mapping-like default missing the key raises `KeyError` (the error value is
the key) regardless of whether `obj` holds the key. -/
def get_attr_value (attr : String) (obj : PyDict) (dflt : PyDefault) :
    Except String PyVal :=
  match dflt with
  | PyDefault.mapping d =>
    match List.lookup attr d with
    | Option.none => Except.error attr
    | Option.some dv => Except.ok ((List.lookup attr obj).getD dv)
  | PyDefault.scalar v => Except.ok ((List.lookup attr obj).getD v)

/-- Embeds `create_config_dict(styles, attrs)` from `utils/attrs.py`: the
dict comprehension `{key: get_attr_value(attr, styles, config) for key, attr
in attrs if get_attr_value(attr, styles, config) is not None}`.  The global
`config` is passed explicitly as `cfg`.  A `KeyError` raised by any
resolution propagates. -/
def create_config_dict (styles : PyDict) (attrs : List (String × String))
    (cfg : PyDict) : Except String PyDict :=
  match attrs with
  | [] => Except.ok []
  | (key, attr) :: rest =>
    match get_attr_value attr styles (PyDefault.mapping cfg) with
    | Except.error e => Except.error e
    | Except.ok v =>
      match create_config_dict styles rest cfg with
      | Except.error e => Except.error e
      | Except.ok tail =>
        Except.ok (if v ≠ PyVal.none then (key, v) :: tail else tail)

/-- Python `math.ceil(a / b)` on integers, modelled with exact rational
division (Python performs float division; it is exact at all the magnitudes
this library handles). -/
def pyCeilDiv (a b : Int) : Int := Int.ceil ((a : ℚ) / (b : ℚ))

/-- Embeds `get_subplot_config(subplots, n_charts, max_cols)` from
`datachart/utils/attrs.py` (the copy that carries the assertions; the
`src/utils/attrs.py` copy is identical except that the two `assert`
statements are absent).  `nrows`/`ncols` start at 1; only inside
`if subplots:` are the two positivity assertions checked and the grid
recomputed as `nrows = math.ceil(n_charts / max_cols)` and `ncols = max_cols
if n_charts >= max_cols else n_charts % max_cols`.  The result models the
returned dict `{"nrows": nrows, "ncols": ncols}` as a pair
`(nrows, ncols)`. -/
def get_subplot_config (subplots : Bool) (n_charts max_cols : Int) :
    Except String (Int × Int) :=
  if subplots then
    if n_charts > 0 then
      if max_cols > 0 then
        Except.ok (pyCeilDiv n_charts max_cols,
          if n_charts ≥ max_cols then max_cols else n_charts % max_cols)
      else Except.error "The maximum number of columns must be greater than 0."
    else Except.error "The number of charts must be greater than 0."
  else Except.ok (1, 1)

/-- The fixed (argument-name, configuration-path) list of `get_line_style`. -/
def line_config_attrs : List (String × String) :=
  [("color", "plot.line.color"),
   ("alpha", "plot.line.alpha"),
   ("linewidth", "plot.line.width"),
   ("linestyle", "plot.line.style"),
   ("marker", "plot.line.marker"),
   ("drawstyle", "plot.line.drawstyle"),
   ("zorder", "plot.line.zorder")]

/-- Embeds `get_line_style(chart_style)`. -/
def get_line_style (chart_style : PyDict) (cfg : PyDict) :
    Except String PyDict :=
  create_config_dict chart_style line_config_attrs cfg

/-- The fixed (argument-name, configuration-path) list of `get_bar_style`;
the argument name for `plot.bar.width` is `height` when the bar is
horizontal and `width` otherwise. -/
def bar_config_attrs (is_horizontal : Bool) : List (String × String) :=
  [("color", "plot.bar.color"),
   ("alpha", "plot.bar.alpha"),
   (if is_horizontal then "height" else "width", "plot.bar.width"),
   ("hatch", "plot.bar.hatch"),
   ("linewidth", "plot.bar.edge.width"),
   ("edgecolor", "plot.bar.edge.color"),
   ("ecolor", "plot.bar.error.color"),
   ("zorder", "plot.bar.zorder")]

/-- Embeds `get_bar_style(chart_style, is_horizontal)`. -/
def get_bar_style (chart_style : PyDict) (is_horizontal : Bool)
    (cfg : PyDict) : Except String PyDict :=
  create_config_dict chart_style (bar_config_attrs is_horizontal) cfg

/-- The fixed (argument-name, configuration-path) list of `get_hist_style`. -/
def hist_config_attrs : List (String × String) :=
  [("color", "plot.hist.color"),
   ("alpha", "plot.hist.alpha"),
   ("fill", "plot.hist.fill"),
   ("hatch", "plot.hist.hatch"),
   ("zorder", "plot.hist.zorder"),
   ("histtype", "plot.hist.type"),
   ("align", "plot.hist.align"),
   ("linewidth", "plot.hist.edge.width"),
   ("edgecolor", "plot.hist.edge.color")]

/-- Embeds `get_hist_style(chart_style)`. -/
def get_hist_style (chart_style : PyDict) (cfg : PyDict) :
    Except String PyDict :=
  create_config_dict chart_style hist_config_attrs cfg

/-- The fixed (argument-name, configuration-path) list of `get_area_style`
(the `datachart/utils/attrs.py` copy, whose line-width path is
`plot.area.line.width`). -/
def area_config_attrs : List (String × String) :=
  [("alpha", "plot.area.alpha"),
   ("color", "plot.area.color"),
   ("linewidth", "plot.area.line.width"),
   ("hatch", "plot.area.hatch"),
   ("zorder", "plot.area.zorder")]

/-- Embeds `get_area_style(chart_style)`. -/
def get_area_style (chart_style : PyDict) (cfg : PyDict) :
    Except String PyDict :=
  create_config_dict chart_style area_config_attrs cfg

/-- The fixed (argument-name, configuration-path) list of `get_grid_style`. -/
def grid_config_attrs : List (String × String) :=
  [("alpha", "plot.grid.alpha"),
   ("color", "plot.grid.color"),
   ("linewidth", "plot.grid.line.width"),
   ("linestyle", "plot.grid.line.style"),
   ("zorder", "plot.grid.zorder")]

/-- Embeds `get_grid_style(chart_style)`. -/
def get_grid_style (chart_style : PyDict) (cfg : PyDict) :
    Except String PyDict :=
  create_config_dict chart_style grid_config_attrs cfg

/-- The fixed (argument-name, configuration-path) list of `get_legend_style`
(the `datachart/utils/attrs.py` copy). -/
def legend_config_attrs : List (String × String) :=
  [("shadow", "plot.legend.shadow"),
   ("frameon", "plot.legend.frameon"),
   ("fontsize", "plot.legend.font.size"),
   ("alignment", "plot.legend.alignment"),
   ("title_fontsize", "plot.legend.title.size"),
   ("labelcolor", "plot.legend.label.color")]

/-- Embeds `get_legend_style()`: `create_config_dict({}, config_attrs)`, so
the series style plays no part. -/
def get_legend_style (cfg : PyDict) : Except String PyDict :=
  create_config_dict [] legend_config_attrs cfg

/-- The per-role attribute names and path stems of `get_text_style`; the
configuration path for a stem `s` and a role `t` is the format result of
`"font.{type}.s"`, i.e. `"font." ++ t ++ "." ++ s`. -/
def text_config_attrs : List (String × String) :=
  [("fontsize", "size"),
   ("fontweight", "weight"),
   ("color", "color"),
   ("style", "style"),
   ("family", "family")]

/-- The format call `"font.{type}.stem".format(type=t)`. -/
def text_config_path (t stem : String) : String :=
  "font." ++ t ++ "." ++ stem

/-- Python `config.get(path, fallback)`: the stored value when the key is
present (even when that stored value is `None`), the fallback otherwise. -/
def config_get (cfg : PyDict) (path : String) (fallback : PyVal) : PyVal :=
  (List.lookup path cfg).getD fallback

/-- Embeds `get_text_style(text_type)`: the dict comprehension
`{key: config.get(attr.format(type=text_type),
config.get(attr.format(type="general")))}` over the five attributes.  The
inner `config.get` has Python default `None`, and the comprehension has no
null filter, so every one of the five keys always appears in the result. -/
def get_text_style (cfg : PyDict) (text_type : String) : PyDict :=
  text_config_attrs.map (fun p =>
    (p.1, config_get cfg (text_config_path text_type p.2)
      (config_get cfg (text_config_path "general" p.2) PyVal.none)))

/-- What `configure_axis_ticks_position` does to one axis: nothing, set the
tick positions only (`ax.set_xticks(ticks)` / `ax.set_yticks(ticks)`), or
set positions together with labels (`func(ticks, labels=ticklabels)`). -/
inductive TickOutcome where
  | unchanged
  | ticksOnly (ticks : List ℚ)
  | ticksWithLabels (ticks : List ℚ) (labels : List String)
deriving DecidableEq, Repr

/-- Embeds the per-axis body of `configure_axis_ticks_position` from
`utils/attrs.py`: given the chart's tick positions and tick labels for one
axis (each `Option.none` when the chart does not carry the attribute), it
returns what is drawn together with whether a warning was emitted.
Branch order follows the source: labels without positions warn and skip the
axis; positions without labels draw ticks only; a length mismatch warns and
draws ticks only; matching lengths draw both; neither given does nothing. -/
def configure_one_axis_ticks (ticks : Option (List ℚ))
    (ticklabels : Option (List String)) : TickOutcome × Bool :=
  match ticks, ticklabels with
  | Option.none, Option.some _ => (TickOutcome.unchanged, true)
  | Option.some t, Option.none => (TickOutcome.ticksOnly t, false)
  | Option.some t, Option.some l =>
    if t.length ≠ l.length then (TickOutcome.ticksOnly t, true)
    else (TickOutcome.ticksWithLabels t l, false)
  | Option.none, Option.none => (TickOutcome.unchanged, false)

/-- The tick attributes a chart specification may carry: `xticks`,
`xticklabels`, `yticks`, `yticklabels` (each possibly absent). -/
structure TickChart where
  xticks : Option (List ℚ)
  xticklabels : Option (List String)
  yticks : Option (List ℚ)
  yticklabels : Option (List String)
deriving DecidableEq, Repr

/-- Embeds `configure_axis_ticks_position(ax, chart)`: the loop over
`(xticks, xticklabels, xaxis)` and `(yticks, yticklabels, yaxis)`, returning
the outcome and warning flag for the x axis and for the y axis. -/
def configure_axis_ticks_position (chart : TickChart) :
    (TickOutcome × Bool) × (TickOutcome × Bool) :=
  (configure_one_axis_ticks chart.xticks chart.xticklabels,
   configure_one_axis_ticks chart.yticks chart.yticklabels)

/-- Embeds `assert_chart_config(chart_config, supported_chart_config)` from
`utils/charts.py`: it loops over the drawing-config dictionary and emits a
warning for each entry whose key is not in the supported list and whose
value is truthy; it raises nothing and does not modify the dictionary.  The
result is the list of keys warned about, in iteration order. -/
def assert_chart_config (chart_config : PyDict)
    (supported_chart_config : List String) : List String :=
  chart_config.filterMap (fun p =>
    if p.1 ∉ supported_chart_config ∧ pyTruthy p.2 then Option.some p.1
    else Option.none)

/-- The supported drawing-config keys of `draw_line_chart`. -/
def line_supported_config : List String :=
  ["as_subplots", "grid", "yerr", "area"]

/-- The supported drawing-config keys of `draw_bar_chart`. -/
def bar_supported_config : List String :=
  ["as_subplots", "grid", "yerr", "orientation"]

/-- The supported drawing-config keys of `draw_hist_chart`. -/
def hist_supported_config : List String :=
  ["as_subplots", "grid", "n_bins", "orientation"]

/-- A JSON-serializable Python value as passed to `json.dumps`: the chart
specifications are built from these.  `obj` keeps its key-value pairs in
insertion order. -/
inductive PyJson where
  | null
  | bool (b : Bool)
  | int (n : Int)
  | str (s : String)
  | arr (l : List PyJson)
  | obj (l : List (String × PyJson))

/-- Inserts a key-value pair into a key-sorted list of pairs, keeping the
keys sorted. -/
def insertPair (p : String × PyJson) :
    List (String × PyJson) → List (String × PyJson)
  | [] => [p]
  | q :: rest => if p.1 ≤ q.1 then p :: q :: rest else q :: insertPair p rest

/-- Sorts a list of key-value pairs by key (insertion sort). -/
def sortPairs : List (String × PyJson) → List (String × PyJson)
  | [] => []
  | p :: rest => insertPair p (sortPairs rest)

mutual
/-- Recursively sorts every object's key-value pairs by key.  Serializing
with `json.dumps(x, sort_keys=True)` is serializing `canonJson x` plainly:
sorting the keys of every object is exactly what `sort_keys=True` does. -/
def canonJson : PyJson → PyJson
  | PyJson.null => PyJson.null
  | PyJson.bool b => PyJson.bool b
  | PyJson.int n => PyJson.int n
  | PyJson.str s => PyJson.str s
  | PyJson.arr l => PyJson.arr (canonJsonList l)
  | PyJson.obj l => PyJson.obj (sortPairs (canonJsonPairs l))

/-- Canonicalizes every element of a JSON array. -/
def canonJsonList : List PyJson → List PyJson
  | [] => []
  | x :: xs => canonJson x :: canonJsonList xs

/-- Canonicalizes the value of every key-value pair. -/
def canonJsonPairs : List (String × PyJson) → List (String × PyJson)
  | [] => []
  | p :: xs => (p.1, canonJson p.2) :: canonJsonPairs xs
end

mutual
/-- Serializes a JSON value in `json.dumps` style, objects in stored order
(string escaping is simplified: the property proved here needs determinism,
not injectivity). -/
def dumpsJson : PyJson → String
  | PyJson.null => "null"
  | PyJson.bool b => if b then "true" else "false"
  | PyJson.int n => toString n
  | PyJson.str s => "\"" ++ s ++ "\""
  | PyJson.arr l => "[" ++ String.intercalate ", " (dumpsJsonList l) ++ "]"
  | PyJson.obj l => "\x7b" ++ String.intercalate ", " (dumpsJsonPairs l) ++ "\x7d"

/-- Serializes the elements of a JSON array. -/
def dumpsJsonList : List PyJson → List String
  | [] => []
  | x :: xs => dumpsJson x :: dumpsJsonList xs

/-- Serializes the key-value pairs of a JSON object. -/
def dumpsJsonPairs : List (String × PyJson) → List String
  | [] => []
  | p :: xs => ("\"" ++ p.1 ++ "\": " ++ dumpsJson p.2) :: dumpsJsonPairs xs
end

/-- Embeds `json.dumps(chart, sort_keys=True)`: serialize with every
object's keys in sorted order. -/
def dumpsSorted (x : PyJson) : String := dumpsJson (canonJson x)

/-- Modelled from the spec: `create_color_cycle` lives in `utils/colors.py`,
which is not among the sources; per the spec's glossary a color cycle is "an
ordered, sized set of colors assigned round-robin (by index)", so indexing
the cycle with an integer selects that index modulo the cycle size (with
`PyVal.none` for an empty cycle). -/
def color_cycle_at (colors : List PyVal) (i : Nat) : PyVal :=
  colors.getD (i % colors.length) PyVal.none

/-- Embeds the per-series color assignment of the chart drawers:
`color_cycle[hash(json.dumps(chart, sort_keys=True))]`, with the in-process
string hash abstracted as an arbitrary function `h`. -/
def assign_color (h : String → Nat) (colors : List PyVal) (chart : PyJson) :
    PyVal :=
  color_cycle_at colors (h (dumpsSorted chart))

/-- The `data` entry of a chart specification: either a mapping from
series-name to a numeric sequence, or a sequence of per-point mappings
(numeric values modelled as integers). -/
inductive ChartData where
  | dictForm (entries : List (String × List Int))
  | listForm (points : List (List (String × Int)))
deriving DecidableEq, Repr

/-- A chart specification as consumed by `draw_hist_chart`: its `data`
entry, its string-valued top-level entries (consulted by `get_chart_data`
through `get_attr_value(attr, chart, attr)` to rename a data attribute) and
its `style` dictionary. -/
structure HChart where
  data : ChartData
  relabel : List (String × String)
  style : PyDict
deriving DecidableEq, Repr

/-- Embeds `get_chart_data(attr, chart)` from `utils/charts.py`:
`attr_label = get_attr_value(attr, chart, attr)` (the chart's own entry for
`attr` if present, else `attr` itself), then for a mapping `data` the entry
under that label or `None`, and for a sequence `data` the array of the
label's values over the points holding it, or `None` when that array is
empty. -/
def get_chart_data (attr : String) (c : HChart) : Option (List Int) :=
  let attr_label := (List.lookup attr c.relabel).getD attr
  match c.data with
  | ChartData.dictForm entries => List.lookup attr_label entries
  | ChartData.listForm points =>
    let data := points.filterMap (fun d => List.lookup attr_label d)
    if data.isEmpty then Option.none else Option.some data

/-- An exact fraction (numerator over denominator), kept unreduced: the
model's stand-in for the floating-point bin-edge values numpy produces.
Only edge-set identity matters to the properties proved here, and identical
computations give identical fractions. -/
structure Frac where
  num : Int
  den : Int
deriving DecidableEq, Repr

/-- The smaller of two integers, phrased through a decidable comparison so
that concrete evaluations reduce inside the kernel. -/
def intMin (a b : Int) : Int := if a < b then a else b

/-- The larger of two integers. -/
def intMax (a b : Int) : Int := if a < b then b else a

/-- The data range numpy's histogram uses when no explicit range is given:
`(a.min(), a.max())` for nonempty data, `(0, 1)` for empty data, and a half
unit padding on both sides when the minimum equals the maximum.  Both
endpoints are returned over a common denominator (1, or 2 in the padded
case). -/
def histRange (data : List Int) : Frac × Frac :=
  match data with
  | [] => (⟨0, 1⟩, ⟨1, 1⟩)
  | x :: xs =>
    let mn := xs.foldl intMin x
    let mx := xs.foldl intMax x
    if mn = mx then (⟨2 * mn - 1, 2⟩, ⟨2 * mx + 1, 2⟩) else (⟨mn, 1⟩, ⟨mx, 1⟩)

/-- The uniform bin edges `np.histogram(data, bins=n)[1]`: `n + 1` equally
spaced values from the range's low edge `lo` to its high edge `hi`; edge
`i` is `lo + (hi - lo) * i / n`, written as the fraction
`(lo.num * n + (hi.num - lo.num) * i) / (den * n)` over the range's common
denominator. -/
def binEdges (data : List Int) (n : Nat) : List Frac :=
  (List.range (n + 1)).map (fun i =>
    ⟨(histRange data).1.num * n +
      ((histRange data).2.num - (histRange data).1.num) * i,
     (histRange data).1.den * n⟩)

/-- Embeds `np.hstack(tuple(x_all))` followed by use as histogram input: it
fails on an empty tuple and when any entry is `None` (a zero-dimensional
object), and otherwise concatenates. -/
def np_hstack (xs : List (Option (List Int))) : Except String (List Int) :=
  match xs with
  | [] => Except.error "need at least one array to concatenate"
  | _ :: _ =>
    match xs.mapM id with
    | Option.none => Except.error "arrays must have same number of dimensions"
    | Option.some ls => Except.ok ls.flatten

/-- The `bins` argument check of `np.histogram`: a positive integer yields
that many uniform bins, anything else this model treats as an error. -/
def np_bins_count (v : PyVal) : Except String Nat :=
  match v with
  | PyVal.int n =>
    if n > 0 then Except.ok n.toNat
    else Except.error "bins must be positive, when an integer"
  | _ => Except.error "bins must be an integer"

/-- Error-propagating map over a list, making each step explicit (Python's
list comprehension over fallible calls). -/
def mapME (f : α → Except ε β) : List α → Except ε (List β)
  | [] => Except.ok []
  | x :: xs =>
    match f x with
    | Except.error e => Except.error e
    | Except.ok y =>
      match mapME f xs with
      | Except.error e => Except.error e
      | Except.ok ys => Except.ok (y :: ys)

/-- Embeds the dictionary merge `{**{"color": c}, **hs}`: the key `color`
comes first, valued by `hs` when `hs` holds it and by `c` otherwise,
followed by the remaining entries of `hs` in order. -/
def merge_color_dict (c : PyVal) (hs : PyDict) : PyDict :=
  ("color", (List.lookup "color" hs).getD c) :: hs.filter (fun p => p.1 ≠ "color")

/-- The per-series merged histogram style:
`{**color_cycle[hash(json.dumps(chart, sort_keys=True))],
**get_hist_style(chart.get("style", {}))}`, with the color cycle indexed at
the chart's hash abstracted as a function `cyc` from the chart to its cycle
color. -/
def hist_series_config (cfg : PyDict) (cyc : HChart → PyVal) (c : HChart) :
    Except String PyDict :=
  match get_hist_style c.style cfg with
  | Except.error e => Except.error e
  | Except.ok hs => Except.ok (merge_color_dict (cyc c) hs)

/-- The drawing-config mapping `chart_wrapper` hands to `draw_hist_chart`:
`as_subplots` and `grid` are read by direct indexing (so they are always
present), while `n_bins` and `orientation` are read with `.get` (absent
means `Option.none`; a present `None` is `Option.some PyVal.none`). -/
structure HistChartConfig where
  as_subplots : PyVal
  grid : PyVal
  n_bins : Option PyVal
  chart_orientation : Option PyVal
deriving DecidableEq, Repr

/-- One call to the plotting backend's `hist` primitive, as issued by
`draw_hist_chart`.  In the shared-axis call the `color` keyword's value is a
list of per-series colors or `None`, unlike every other (scalar) keyword, so
it is carried in the separate field `colorArg` (`Option.none` is Python
`None`); `kwargs` then holds the remaining keywords of
`{**hist_config[0], "color": ...}`. -/
inductive HistCall where
  | shared (data : List (List Int)) (bins : List Frac) (orient : PyVal)
      (stacked : Bool) (kwargs : PyDict) (colorArg : Option (List PyVal))
  | single (data : List Int) (bins : List Frac) (density : Option (List Int))
      (cumulative : Option (List Int)) (orient : PyVal) (stacked : Bool)
      (kwargs : PyDict)
deriving DecidableEq, Repr

/-- The bin edges a `hist` call uses. -/
def HistCall.binsOf : HistCall → List Frac
  | HistCall.shared _ bins _ _ _ _ => bins
  | HistCall.single _ bins _ _ _ _ _ => bins

/-- Embeds `draw_hist_chart(axes, charts, chart_config)` from
`utils/charts.py`, returning the list of `hist` calls it issues (the
`ax.grid` call is not modelled).  In source order: read `orientation` and
`n_bins` (`.get` defaults `"vertical"` and `20`), collect every chart's
primary data `x_all`, compute one shared `bins` from
`np.histogram(np.hstack(tuple(x_all)), bins=n_bins)[1]`, then either issue a
single stacked call on the shared axis (styles merged per series, explicit
colors suppressed to `None` when any series' resolved color is `None`) or
one call per chart on its own axis. -/
def draw_hist_chart (cfg : PyDict) (cyc : HChart → PyVal)
    (charts : List HChart) (chart_config : HistChartConfig) :
    Except String (List HistCall) :=
  let orient := chart_config.chart_orientation.getD (PyVal.str "vertical")
  let nbinsV := chart_config.n_bins.getD (PyVal.int 20)
  match np_hstack (charts.map (fun c => get_chart_data "x" c)) with
  | Except.error e => Except.error e
  | Except.ok flat =>
    match np_bins_count nbinsV with
    | Except.error e => Except.error e
    | Except.ok n =>
      let bins := binEdges flat n
      if !pyTruthy chart_config.as_subplots then
        match mapME (hist_series_config cfg cyc) charts with
        | Except.error e => Except.error e
        | Except.ok hcs =>
          match hcs with
          | [] => Except.error "list index out of range"
          | h0 :: _ =>
            let colors := hcs.map (fun d => (List.lookup "color" d).getD PyVal.none)
            Except.ok [HistCall.shared
              (charts.map (fun c => (get_chart_data "x" c).getD []))
              bins orient true
              (h0.filter (fun p => p.1 ≠ "color"))
              (if PyVal.none ∈ colors then Option.none else Option.some colors)]
      else
        mapME (fun c =>
          match hist_series_config cfg cyc c with
          | Except.error e => Except.error e
          | Except.ok hc =>
            Except.ok (HistCall.single ((get_chart_data "x" c).getD [])
              bins (get_chart_data "density" c) (get_chart_data "cumulative" c)
              orient (!pyTruthy chart_config.as_subplots) hc)) charts

/-- The per-series resolved color in the shared-axis histogram branch: the
`color` entry of that series' merged style dictionary (the source's
`[c["color"] for c in hist_config]`). -/
def resolved_hist_color (cfg : PyDict) (cyc : HChart → PyVal) (c : HChart) :
    Except String PyVal :=
  match hist_series_config cfg cyc c with
  | Except.error e => Except.error e
  | Except.ok d => Except.ok ((List.lookup "color" d).getD PyVal.none)

instance : IsAntisymm (String × PyJson) (fun a b => a.1 < b.1) :=
  ⟨fun _ _ h1 h2 => absurd h2 (not_lt.mpr (le_of_lt h1))⟩

instance {ε α : Type} [DecidableEq ε] [DecidableEq α] :
    DecidableEq (Except ε α) := fun a b =>
  match a, b with
  | Except.error e, Except.error f =>
    if h : e = f then isTrue (by rw [h])
    else isFalse (by intro hh; cases hh; exact h rfl)
  | Except.error _, Except.ok _ => isFalse (by intro hh; cases hh)
  | Except.ok _, Except.error _ => isFalse (by intro hh; cases hh)
  | Except.ok x, Except.ok y =>
    if h : x = y then isTrue (by rw [h])
    else isFalse (by intro hh; cases hh; exact h rfl)

/-- Claim C1: for every positive chart count `n` and maximum-column count
`m`, `get_subplot_config` returns rows 1 and columns 1 when the subplots
flag is false; when the flag is true it returns columns `m` if `n ≥ m` and
`n % m` otherwise, and rows `⌈n / m⌉`; in particular (10, 4) gives rows 3
and columns 4, (4, 4) gives rows 1 and columns 4, and (3, 4) gives rows 1
and columns 3. -/
theorem subplot_config_layout :
    (∀ n m : Int, 0 < n → 0 < m →
      get_subplot_config false n m = Except.ok (1, 1) ∧
      get_subplot_config true n m =
        Except.ok (Int.ceil ((n : ℚ) / (m : ℚ)),
          if n ≥ m then m else n % m)) ∧
    get_subplot_config true 10 4 = Except.ok (3, 4) ∧
    get_subplot_config true 4 4 = Except.ok (1, 4) ∧
    get_subplot_config true 3 4 = Except.ok (1, 3) := by
  refine ⟨fun n m hn hm => ⟨rfl, ?_⟩, ?_, ?_, ?_⟩
  · simp [get_subplot_config, hn, hm, pyCeilDiv]
  · show Except.ok (pyCeilDiv 10 4, _) = _
    norm_num [pyCeilDiv]
    rw [Int.ceil_eq_iff]
    norm_num
  · show Except.ok (pyCeilDiv 4 4, _) = _
    norm_num [pyCeilDiv]
  · show Except.ok (pyCeilDiv 3 4, _) = _
    norm_num [pyCeilDiv]
    rw [Int.ceil_eq_iff]
    norm_num

/-- Witness for `subplot_config_layout` at `n = 5`, `m = 3`. -/
theorem subplot_config_layout_witness :
    get_subplot_config false 5 3 = Except.ok (1, 1) ∧
    get_subplot_config true 5 3 = Except.ok (2, 3) := by
  have h := subplot_config_layout.1 5 3 (by norm_num) (by norm_num)
  refine ⟨h.1, ?_⟩
  rw [h.2]
  norm_num
  rw [Int.ceil_eq_iff]
  norm_num

/-- Counterexample to claim C2: with the subplots flag false, a zero chart
count and a negative column count do not fail — the call returns rows 1,
columns 1, because the positivity assertions sit inside the
`if subplots:` branch. -/
theorem subplot_config_no_error_when_flag_false :
    get_subplot_config false 0 (-1) = Except.ok (1, 1) := rfl

/-- Claim C2 as amended: a zero or negative chart count or maximum-column
count makes `get_subplot_config` fail with a propagated assertion error only
when the subplots flag is true; when the flag is false the arguments are not
validated and the call returns rows 1, columns 1. -/
theorem subplot_config_nonpositive_fails_when_subplots :
    ∀ n m : Int, (n ≤ 0 ∨ m ≤ 0) →
      (∃ e, get_subplot_config true n m = Except.error e) ∧
      get_subplot_config false n m = Except.ok (1, 1) := by
  intro n m h
  refine ⟨?_, rfl⟩
  by_cases hn : n > 0
  · have hm : ¬ m > 0 := by omega
    exact ⟨"The maximum number of columns must be greater than 0.",
      by simp [get_subplot_config, hn, hm]⟩
  · exact ⟨"The number of charts must be greater than 0.",
      by simp [get_subplot_config, hn]⟩

/-- Witness for `subplot_config_nonpositive_fails_when_subplots` at
`n = 0`, `m = 5`. -/
theorem subplot_config_nonpositive_fails_witness :
    (∃ e, get_subplot_config true 0 5 = Except.error e) ∧
    get_subplot_config false 0 5 = Except.ok (1, 1) :=
  subplot_config_nonpositive_fails_when_subplots 0 5 (Or.inl (by norm_num))

/-- Counterexample to claim C3: resolving the attribute `color` from a style
mapping that contains it, with an empty mapping-like default, raises a
missing-key error instead of returning the style mapping's value, because
`obj.get(attr, default[attr])` evaluates `default[attr]` first. -/
theorem get_attr_value_present_key_raises :
    get_attr_value "color" [("color", PyVal.str "red")]
      (PyDefault.mapping []) = Except.error "color" := rfl

/-- Claim C3 as amended: `get_attr_value` returns the style mapping's value
for the attribute when present and the default's value otherwise, for a
scalar default; for a mapping-like default the same holds provided the
default also carries the key, and a missing-key error is signalled exactly
when the mapping-like default lacks the key (regardless of whether the
style mapping contains it). -/
theorem get_attr_value_resolution :
    ∀ (attr : String) (obj d : PyDict) (v : PyVal),
      (∀ w dv, List.lookup attr obj = Option.some w →
        List.lookup attr d = Option.some dv →
        get_attr_value attr obj (PyDefault.mapping d) = Except.ok w) ∧
      (∀ dv, List.lookup attr obj = Option.none →
        List.lookup attr d = Option.some dv →
        get_attr_value attr obj (PyDefault.mapping d) = Except.ok dv) ∧
      (∀ w, List.lookup attr obj = Option.some w →
        get_attr_value attr obj (PyDefault.scalar v) = Except.ok w) ∧
      (List.lookup attr obj = Option.none →
        get_attr_value attr obj (PyDefault.scalar v) = Except.ok v) ∧
      ((∃ e, get_attr_value attr obj (PyDefault.mapping d) = Except.error e) ↔
        List.lookup attr d = Option.none) := by
  intro attr obj d v
  refine ⟨?_, ?_, ?_, ?_, ?_, ?_⟩
  · intro w dv hw hd
    simp [get_attr_value, hw, hd]
  · intro dv hw hd
    simp [get_attr_value, hw, hd]
  · intro w hw
    simp [get_attr_value, hw]
  · intro hw
    simp [get_attr_value, hw]
  · rintro ⟨e, he⟩
    cases hd : List.lookup attr d with
    | none => rfl
    | some dv => simp [get_attr_value, hd] at he
  · intro hd
    exact ⟨attr, by simp [get_attr_value, hd]⟩

/-- Witness for `get_attr_value_resolution`: concrete lookups through a
style mapping, a mapping-like default, and a scalar default. -/
theorem get_attr_value_resolution_witness :
    get_attr_value "alpha" [("alpha", PyVal.int 1)]
      (PyDefault.mapping [("alpha", PyVal.int 2)]) = Except.ok (PyVal.int 1) ∧
    get_attr_value "alpha" []
      (PyDefault.mapping [("alpha", PyVal.int 2)]) = Except.ok (PyVal.int 2) ∧
    get_attr_value "alpha" [] (PyDefault.scalar (PyVal.int 3)) =
      Except.ok (PyVal.int 3) := by
  have h := get_attr_value_resolution "alpha" [("alpha", PyVal.int 1)]
    [("alpha", PyVal.int 2)] (PyVal.int 3)
  have h2 := get_attr_value_resolution "alpha" [] [("alpha", PyVal.int 2)]
    (PyVal.int 3)
  exact ⟨h.1 (PyVal.int 1) (PyVal.int 2) (by decide) (by decide),
    h2.2.1 (PyVal.int 2) (by decide) (by decide),
    h2.2.2.2.1 (by decide)⟩

/-- Claim C9: with a mapping-like default, `get_attr_value` evaluates the
default's entry for the key unconditionally: when the default lacks the key
it raises a missing-key error even if the style mapping contains the key,
and a value is returned only when the default also maps the key (returning
the style mapping's value whenever the style mapping holds the key). -/
theorem get_attr_value_eager_default :
    ∀ (attr : String) (obj d : PyDict),
      (List.lookup attr d = Option.none →
        get_attr_value attr obj (PyDefault.mapping d) = Except.error attr) ∧
      (∀ v, get_attr_value attr obj (PyDefault.mapping d) = Except.ok v →
        (∃ dv, List.lookup attr d = Option.some dv) ∧
        (∀ w, List.lookup attr obj = Option.some w → v = w)) := by
  intro attr obj d
  constructor
  · intro hd
    simp [get_attr_value, hd]
  · intro v hv
    cases hd : List.lookup attr d with
    | none => simp [get_attr_value, hd] at hv
    | some dv =>
      refine ⟨⟨dv, rfl⟩, ?_⟩
      intro w hw
      simp [get_attr_value, hd, hw] at hv
      exact hv.symm

/-- Witness for `get_attr_value_eager_default`: the error case at an empty
default and the value case at a populated one. -/
theorem get_attr_value_eager_default_witness :
    get_attr_value "zorder" [("zorder", PyVal.int 7)]
      (PyDefault.mapping []) = Except.error "zorder" ∧
    ((∃ dv, List.lookup "zorder" [("zorder", PyVal.int 9)] = Option.some dv) ∧
      (∀ w, List.lookup "zorder" [("zorder", PyVal.int 7)] = Option.some w →
        PyVal.int 7 = w)) := by
  have h1 := (get_attr_value_eager_default "zorder" [("zorder", PyVal.int 7)] []).1
  have h2 := (get_attr_value_eager_default "zorder" [("zorder", PyVal.int 7)]
    [("zorder", PyVal.int 9)]).2
  exact ⟨h1 (by decide), h2 (PyVal.int 7) rfl⟩

/-- Claim C7: for each axis, `configure_axis_ticks_position` draws only the
ticks when positions are given without labels; draws both when positions
and labels have equal lengths; warns and draws only the ticks (labels
discarded) when the lengths differ; and warns and leaves the axis entirely
unconfigured when labels are given without positions. -/
theorem ticks_position_policy :
    ∀ (chart : TickChart),
      configure_axis_ticks_position chart =
        (configure_one_axis_ticks chart.xticks chart.xticklabels,
         configure_one_axis_ticks chart.yticks chart.yticklabels) ∧
      (∀ t : List ℚ, configure_one_axis_ticks (Option.some t) Option.none =
        (TickOutcome.ticksOnly t, false)) ∧
      (∀ (t : List ℚ) (l : List String), t.length = l.length →
        configure_one_axis_ticks (Option.some t) (Option.some l) =
          (TickOutcome.ticksWithLabels t l, false)) ∧
      (∀ (t : List ℚ) (l : List String), t.length ≠ l.length →
        configure_one_axis_ticks (Option.some t) (Option.some l) =
          (TickOutcome.ticksOnly t, true)) ∧
      (∀ l : List String, configure_one_axis_ticks Option.none (Option.some l) =
        (TickOutcome.unchanged, true)) := by
  intro chart
  refine ⟨rfl, fun t => rfl, ?_, ?_, fun l => rfl⟩
  · intro t l h
    simp [configure_one_axis_ticks, h]
  · intro t l h
    simp [configure_one_axis_ticks, h]

/-- Witness for `ticks_position_policy` at the spec's own instances:
positions `[1, 2, 3]` with labels `a`, `b` (mismatched lengths) draw ticks
only with a warning, and labels without positions warn and leave the axis
unconfigured. -/
theorem ticks_position_policy_witness :
    configure_one_axis_ticks (Option.some [(1 : ℚ), 2, 3])
      (Option.some ["a", "b"]) = (TickOutcome.ticksOnly [(1 : ℚ), 2, 3], true) ∧
    configure_one_axis_ticks Option.none (Option.some ["a"]) =
      (TickOutcome.unchanged, true) := by
  have h := ticks_position_policy ⟨Option.none, Option.none, Option.none,
    Option.none⟩
  exact ⟨h.2.2.2.1 [(1 : ℚ), 2, 3] ["a", "b"] (by decide),
    h.2.2.2.2 ["a"]⟩

/-- Counterexample to claim C8: an unsupported drawing-config key whose
value is falsy (here the `bogus` key carrying `None`) produces no warning
at all, while the claim requires every unsupported key present in the
mapping to be warned about. -/
theorem assert_chart_config_falsy_silent :
    assert_chart_config [("bogus", PyVal.none)] line_supported_config = [] :=
  rfl

/-- Claim C8 as amended: for each chart-type drawer's supported set (line,
bar, histogram) and every drawing-config mapping, a key is warned about
exactly when it appears in the mapping with a truthy value and is not in
the supported set; a present unsupported key with a falsy value is ignored
silently; the check is a pure total function (it never raises and leaves
the mapping untouched), and drawing proceeds. -/
theorem assert_chart_config_truthy_warns :
    ∀ supported ∈ [line_supported_config, bar_supported_config,
      hist_supported_config],
      ∀ (chart_config : PyDict) (k : String),
        k ∈ assert_chart_config chart_config supported ↔
          ∃ v, (k, v) ∈ chart_config ∧ k ∉ supported ∧ pyTruthy v = true := by
  intro supported _ chart_config k
  simp only [assert_chart_config, List.mem_filterMap]
  constructor
  · rintro ⟨⟨k', v⟩, hmem, hf⟩
    by_cases hc : k' ∉ supported ∧ pyTruthy v
    · simp [hc] at hf
      exact ⟨v, by simpa [hf] using hmem, by simpa [hf] using hc.1,
        by simpa using hc.2⟩
    · simp [hc] at hf
  · rintro ⟨v, hmem, hns, ht⟩
    exact ⟨(k, v), hmem, by simp [hns, ht]⟩

/-- Witness for `assert_chart_config_truthy_warns`: against the line
drawer's supported set, a truthy unsupported key is warned about. -/
theorem assert_chart_config_truthy_warns_witness :
    "bogus" ∈ assert_chart_config [("bogus", PyVal.bool true)]
      line_supported_config :=
  ((assert_chart_config_truthy_warns line_supported_config (by simp)
    [("bogus", PyVal.bool true)] "bogus").2
    ⟨PyVal.bool true, by simp, by decide, rfl⟩)

theorem create_config_dict_ok_no_null (styles cfg : PyDict) :
    ∀ (attrs : List (String × String)) (out : PyDict),
      create_config_dict styles attrs cfg = Except.ok out →
      ∀ p ∈ out, p.2 ≠ PyVal.none := by
  intro attrs
  induction attrs with
  | nil =>
    intro out h p hp
    simp only [create_config_dict] at h
    cases h
    simp at hp
  | cons a rest ih =>
    intro out h p hp
    obtain ⟨key, attr⟩ := a
    simp only [create_config_dict] at h
    cases hv : get_attr_value attr styles (PyDefault.mapping cfg) with
    | error e => rw [hv] at h; cases h
    | ok v =>
      rw [hv] at h
      cases ht : create_config_dict styles rest cfg with
      | error e => rw [ht] at h; cases h
      | ok tail =>
        rw [ht] at h
        by_cases hvn : v = PyVal.none
        · simp [hvn] at h
          exact ih out (h ▸ ht) p hp
        · simp [hvn] at h
          rw [← h] at hp
          rcases List.mem_cons.mp hp with hp | hp
          · rw [hp]; exact hvn
          · exact ih tail ht p hp

theorem create_config_dict_ok_complete (styles cfg : PyDict) :
    ∀ (attrs : List (String × String)) (out : PyDict),
      create_config_dict styles attrs cfg = Except.ok out →
      (∀ q ∈ attrs, ∃ v, List.lookup q.2 styles = Option.some v ∧
        v ≠ PyVal.none) →
      ∀ q ∈ attrs, q.1 ∈ out.map Prod.fst := by
  intro attrs
  induction attrs with
  | nil =>
    intro out h hfull q hq
    simp at hq
  | cons a rest ih =>
    intro out h hfull q hq
    obtain ⟨key, attr⟩ := a
    simp only [create_config_dict] at h
    cases hv : get_attr_value attr styles (PyDefault.mapping cfg) with
    | error e => rw [hv] at h; cases h
    | ok v =>
      rw [hv] at h
      cases ht : create_config_dict styles rest cfg with
      | error e => rw [ht] at h; cases h
      | ok tail =>
        rw [ht] at h
        obtain ⟨w, hw, hwn⟩ := hfull (key, attr) (List.mem_cons_self _ _)
        have hveq : v = w := by
          simp only [get_attr_value] at hv
          cases hcfg : List.lookup attr cfg with
          | none => rw [hcfg] at hv; cases hv
          | some dv =>
            rw [hcfg] at hv
            injection hv with hv
            rw [← hv, hw]
            rfl
        have hvn : v ≠ PyVal.none := hveq ▸ hwn
        simp [hvn] at h
        rcases List.mem_cons.mp hq with hq | hq
        · rw [← h, hq]
          simp
        · have := ih tail ht (fun q hq => hfull q (List.mem_cons_of_mem _ hq))
            q hq
          rw [← h]
          simpa using Or.inr (List.mem_map.mp this)

/-- Counterexample to claim C4: the text style builder keeps keys whose
resolved value is null — with an empty configuration, `get_text_style` for
the `title` role returns all five declared keys mapped to `None`. -/
theorem get_text_style_emits_null :
    get_text_style [] "title" =
      [("fontsize", PyVal.none), ("fontweight", PyVal.none),
       ("color", PyVal.none), ("style", PyVal.none),
       ("family", PyVal.none)] := rfl

/-- Claim C4 as amended: for the builders that use `create_config_dict`
(line, bar, hist, area, grid, legend), a successful output never contains a
key whose resolved value is null, and — when the builder returns
successfully and the series style supplies a non-null value for every
declared (argument-name, configuration-path) pair — every declared pair's
argument name appears in the output (for the legend builder, which takes no
series style, only the null-freeness applies).  The text style builder is
different: it always emits all five of its declared argument names, with no
filtering of null values. -/
theorem style_builders_null_policy :
    ∀ (cfg style : PyDict) (horiz : Bool) (role : String),
      (∀ out, get_line_style style cfg = Except.ok out →
        (∀ p ∈ out, p.2 ≠ PyVal.none) ∧
        ((∀ q ∈ line_config_attrs, ∃ v,
            List.lookup q.2 style = Option.some v ∧ v ≠ PyVal.none) →
          ∀ q ∈ line_config_attrs, q.1 ∈ out.map Prod.fst)) ∧
      (∀ out, get_bar_style style horiz cfg = Except.ok out →
        (∀ p ∈ out, p.2 ≠ PyVal.none) ∧
        ((∀ q ∈ bar_config_attrs horiz, ∃ v,
            List.lookup q.2 style = Option.some v ∧ v ≠ PyVal.none) →
          ∀ q ∈ bar_config_attrs horiz, q.1 ∈ out.map Prod.fst)) ∧
      (∀ out, get_hist_style style cfg = Except.ok out →
        (∀ p ∈ out, p.2 ≠ PyVal.none) ∧
        ((∀ q ∈ hist_config_attrs, ∃ v,
            List.lookup q.2 style = Option.some v ∧ v ≠ PyVal.none) →
          ∀ q ∈ hist_config_attrs, q.1 ∈ out.map Prod.fst)) ∧
      (∀ out, get_area_style style cfg = Except.ok out →
        (∀ p ∈ out, p.2 ≠ PyVal.none) ∧
        ((∀ q ∈ area_config_attrs, ∃ v,
            List.lookup q.2 style = Option.some v ∧ v ≠ PyVal.none) →
          ∀ q ∈ area_config_attrs, q.1 ∈ out.map Prod.fst)) ∧
      (∀ out, get_grid_style style cfg = Except.ok out →
        (∀ p ∈ out, p.2 ≠ PyVal.none) ∧
        ((∀ q ∈ grid_config_attrs, ∃ v,
            List.lookup q.2 style = Option.some v ∧ v ≠ PyVal.none) →
          ∀ q ∈ grid_config_attrs, q.1 ∈ out.map Prod.fst)) ∧
      (∀ out, get_legend_style cfg = Except.ok out →
        ∀ p ∈ out, p.2 ≠ PyVal.none) ∧
      (get_text_style cfg role).map Prod.fst =
        ["fontsize", "fontweight", "color", "style", "family"] := by
  intro cfg style horiz role
  refine ⟨?_, ?_, ?_, ?_, ?_, ?_, rfl⟩
  · exact fun out h => ⟨create_config_dict_ok_no_null style cfg _ out h,
      fun hf => create_config_dict_ok_complete style cfg _ out h hf⟩
  · exact fun out h => ⟨create_config_dict_ok_no_null style cfg _ out h,
      fun hf => create_config_dict_ok_complete style cfg _ out h hf⟩
  · exact fun out h => ⟨create_config_dict_ok_no_null style cfg _ out h,
      fun hf => create_config_dict_ok_complete style cfg _ out h hf⟩
  · exact fun out h => ⟨create_config_dict_ok_no_null style cfg _ out h,
      fun hf => create_config_dict_ok_complete style cfg _ out h hf⟩
  · exact fun out h => ⟨create_config_dict_ok_no_null style cfg _ out h,
      fun hf => create_config_dict_ok_complete style cfg _ out h hf⟩
  · exact fun out h => create_config_dict_ok_no_null [] cfg _ out h

/-- Witness for `style_builders_null_policy`: with a configuration defining
every line path and a series style supplying a non-null value for each
declared pair, the line builder's output is null-free and carries every
declared argument name. -/
theorem style_builders_null_policy_witness :
    (∀ p ∈ [("color", PyVal.str "v"), ("alpha", PyVal.str "v"),
        ("linewidth", PyVal.str "v"), ("linestyle", PyVal.str "v"),
        ("marker", PyVal.str "v"), ("drawstyle", PyVal.str "v"),
        ("zorder", PyVal.str "v")], p.2 ≠ PyVal.none) ∧
    (∀ q ∈ line_config_attrs,
      q.1 ∈ ([("color", PyVal.str "v"), ("alpha", PyVal.str "v"),
        ("linewidth", PyVal.str "v"), ("linestyle", PyVal.str "v"),
        ("marker", PyVal.str "v"), ("drawstyle", PyVal.str "v"),
        ("zorder", PyVal.str "v")] : PyDict).map Prod.fst) := by
  have h := (style_builders_null_policy
    [("plot.line.color", PyVal.none), ("plot.line.alpha", PyVal.none),
     ("plot.line.width", PyVal.none), ("plot.line.style", PyVal.none),
     ("plot.line.marker", PyVal.none), ("plot.line.drawstyle", PyVal.none),
     ("plot.line.zorder", PyVal.none)]
    [("plot.line.color", PyVal.str "v"), ("plot.line.alpha", PyVal.str "v"),
     ("plot.line.width", PyVal.str "v"), ("plot.line.style", PyVal.str "v"),
     ("plot.line.marker", PyVal.str "v"),
     ("plot.line.drawstyle", PyVal.str "v"),
     ("plot.line.zorder", PyVal.str "v")]
    false "title").1
    [("color", PyVal.str "v"), ("alpha", PyVal.str "v"),
     ("linewidth", PyVal.str "v"), ("linestyle", PyVal.str "v"),
     ("marker", PyVal.str "v"), ("drawstyle", PyVal.str "v"),
     ("zorder", PyVal.str "v")] rfl
  refine ⟨h.1, h.2 ?_⟩
  intro q hq
  fin_cases hq <;> exact ⟨PyVal.str "v", rfl, by decide⟩

theorem insertPair_perm (p : String × PyJson) (l : List (String × PyJson)) :
    (insertPair p l).Perm (p :: l) := by
  induction l with
  | nil => simp [insertPair]
  | cons q rest ih =>
    simp only [insertPair]
    by_cases h : p.1 ≤ q.1
    · simp [h]
    · simp only [h, if_false]
      exact (ih.cons q).trans (List.Perm.swap p q rest)

theorem sortPairs_perm (l : List (String × PyJson)) : (sortPairs l).Perm l := by
  induction l with
  | nil => simp [sortPairs]
  | cons p rest ih =>
    exact (insertPair_perm p (sortPairs rest)).trans (ih.cons p)

theorem insertPair_sorted (p : String × PyJson) (l : List (String × PyJson))
    (h : l.Pairwise (fun a b => a.1 ≤ b.1)) :
    (insertPair p l).Pairwise (fun a b => a.1 ≤ b.1) := by
  induction l with
  | nil => simp [insertPair]
  | cons q rest ih =>
    simp only [insertPair]
    by_cases hle : p.1 ≤ q.1
    · simp only [hle, if_true]
      refine List.Pairwise.cons ?_ h
      intro b hb
      rcases List.mem_cons.mp hb with rfl | hb
      · exact hle
      · exact le_trans hle (List.rel_of_pairwise_cons h hb)
    · simp only [hle, if_false]
      refine List.Pairwise.cons ?_ (ih (List.Pairwise.of_cons h))
      intro b hb
      rcases List.mem_cons.mp ((insertPair_perm p rest).mem_iff.mp hb) with
        rfl | hb'
      · exact le_of_not_le hle
      · exact List.rel_of_pairwise_cons h hb'

theorem sortPairs_sorted (l : List (String × PyJson)) :
    (sortPairs l).Pairwise (fun a b => a.1 ≤ b.1) := by
  induction l with
  | nil => simp [sortPairs]
  | cons p rest ih => exact insertPair_sorted p (sortPairs rest) ih

theorem pairwise_lt_of_sorted_nodup (l : List (String × PyJson))
    (hs : l.Pairwise (fun a b => a.1 ≤ b.1))
    (hn : (l.map Prod.fst).Nodup) :
    l.Pairwise (fun a b => a.1 < b.1) := by
  have hne : l.Pairwise (fun a b => a.1 ≠ b.1) := by
    rw [List.Nodup, List.pairwise_map] at hn
    exact hn
  exact (hs.and hne).imp (fun h => lt_of_le_of_ne h.1 h.2)

theorem sortPairs_eq_of_perm (l₁ l₂ : List (String × PyJson))
    (hp : l₁.Perm l₂) (hn : (l₁.map Prod.fst).Nodup) :
    sortPairs l₁ = sortPairs l₂ := by
  have hperm : (sortPairs l₁).Perm (sortPairs l₂) :=
    (sortPairs_perm l₁).trans (hp.trans (sortPairs_perm l₂).symm)
  have hn₁ : ((sortPairs l₁).map Prod.fst).Nodup :=
    (((sortPairs_perm l₁).map Prod.fst).nodup_iff).mpr hn
  have hn₂ : ((sortPairs l₂).map Prod.fst).Nodup :=
    ((hperm.map Prod.fst).nodup_iff).mp hn₁
  have hs₁ : List.Sorted (fun a b => a.1 < b.1) (sortPairs l₁) :=
    pairwise_lt_of_sorted_nodup _ (sortPairs_sorted l₁) hn₁
  have hs₂ : List.Sorted (fun a b => a.1 < b.1) (sortPairs l₂) :=
    pairwise_lt_of_sorted_nodup _ (sortPairs_sorted l₂) hn₂
  exact List.eq_of_perm_of_sorted hperm hs₁ hs₂

theorem canonJsonPairs_eq_map (l : List (String × PyJson)) :
    canonJsonPairs l = l.map (fun p => (p.1, canonJson p.2)) := by
  induction l with
  | nil => rfl
  | cons p rest ih => simp [canonJsonPairs, ih]

/-- Claim C6: within one process, two series with identical
chart-specification content receive identical color assignments, and
reordering the keys of a series' specification mapping does not change its
assigned color, because the assignment indexes the color cycle by a hash of
the canonical key-sorted serialization of the full specification (stated
for every in-process hash function and every color cycle). -/
theorem color_assignment_canonical :
    ∀ (h : String → Nat) (colors : List PyVal),
      (∀ c₁ c₂ : PyJson, c₁ = c₂ →
        assign_color h colors c₁ = assign_color h colors c₂) ∧
      (∀ l₁ l₂ : List (String × PyJson), l₁.Perm l₂ →
        (l₁.map Prod.fst).Nodup →
        assign_color h colors (PyJson.obj l₁) =
          assign_color h colors (PyJson.obj l₂)) := by
  intro h colors
  refine ⟨fun c₁ c₂ hc => hc ▸ rfl, ?_⟩
  intro l₁ l₂ hp hn
  have hkeys : (l₁.map (fun p => (p.1, canonJson p.2))).map Prod.fst =
      l₁.map Prod.fst := by
    simp
  have hcanon : canonJson (PyJson.obj l₁) = canonJson (PyJson.obj l₂) := by
    simp only [canonJson]
    congr 1
    apply sortPairs_eq_of_perm
    · rw [canonJsonPairs_eq_map, canonJsonPairs_eq_map]
      exact hp.map _
    · rw [canonJsonPairs_eq_map, hkeys]
      exact hn
  unfold assign_color dumpsSorted
  rw [hcanon]

/-- Witness for `color_assignment_canonical`: swapping the two keys of a
specification object leaves the assigned color unchanged. -/
theorem color_assignment_canonical_witness :
    assign_color String.length [PyVal.str "red", PyVal.str "blue"]
      (PyJson.obj [("a", PyJson.int 1), ("b", PyJson.int 2)]) =
    assign_color String.length [PyVal.str "red", PyVal.str "blue"]
      (PyJson.obj [("b", PyJson.int 2), ("a", PyJson.int 1)]) :=
  (color_assignment_canonical String.length
    [PyVal.str "red", PyVal.str "blue"]).2
    [("a", PyJson.int 1), ("b", PyJson.int 2)]
    [("b", PyJson.int 2), ("a", PyJson.int 1)]
    (List.Perm.swap ("b", PyJson.int 2) ("a", PyJson.int 1) [])
    (by decide)

theorem mapME_mem {α β ε : Type} (f : α → Except ε β) :
    ∀ (l : List α) (ys : List β), mapME f l = Except.ok ys →
      ∀ y ∈ ys, ∃ x ∈ l, f x = Except.ok y := by
  intro l
  induction l with
  | nil =>
    intro ys h y hy
    simp only [mapME] at h
    cases h
    simp at hy
  | cons x xs ih =>
    intro ys h y hy
    simp only [mapME] at h
    cases hx : f x with
    | error e => rw [hx] at h; cases h
    | ok y0 =>
      rw [hx] at h
      cases ht : mapME f xs with
      | error e => rw [ht] at h; cases h
      | ok ys0 =>
        rw [ht] at h
        cases h
        rcases List.mem_cons.mp hy with rfl | hy
        · exact ⟨x, List.mem_cons_self _ _, hx⟩
        · obtain ⟨x', hx', hfx'⟩ := ih ys0 ht y hy
          exact ⟨x', List.mem_cons_of_mem _ hx', hfx'⟩

/-- Claim C5: `draw_hist_chart` computes one bin-edge set from the
concatenation of all series' primary data, with the configured bin count
defaulting to 20 when none is configured, and that identical bin-edge set
is used by every issued hist call, in both shared-axis and subplot mode,
regardless of per-series density and cumulative flags. -/
theorem hist_shared_bins :
    ∀ (cfg : PyDict) (cyc : HChart → PyVal) (charts : List HChart)
      (cc : HistChartConfig) (calls : List HistCall),
      draw_hist_chart cfg cyc charts cc = Except.ok calls →
      ∃ flat n,
        np_hstack (charts.map (fun c => get_chart_data "x" c)) =
          Except.ok flat ∧
        np_bins_count (cc.n_bins.getD (PyVal.int 20)) = Except.ok n ∧
        (cc.n_bins = Option.none → n = 20) ∧
        ∀ call ∈ calls, call.binsOf = binEdges flat n := by
  intro cfg cyc charts cc calls h
  simp only [draw_hist_chart] at h
  cases hh : np_hstack (charts.map (fun c => get_chart_data "x" c)) with
  | error e => rw [hh] at h; cases h
  | ok flat =>
    rw [hh] at h
    cases hb : np_bins_count (cc.n_bins.getD (PyVal.int 20)) with
    | error e => rw [hb] at h; cases h
    | ok n =>
      rw [hb] at h
      refine ⟨flat, n, rfl, rfl, ?_, ?_⟩
      · intro hnone
        rw [hnone] at hb
        simp only [Option.getD, np_bins_count] at hb
        norm_num at hb
        omega
      · cases hsub : pyTruthy cc.as_subplots with
        | false =>
          rw [hsub] at h
          simp only [Bool.not_false, if_true] at h
          cases hm : mapME (hist_series_config cfg cyc) charts with
          | error e => rw [hm] at h; cases h
          | ok hcs =>
            rw [hm] at h
            cases hcs with
            | nil => cases h
            | cons h0 t =>
              cases h
              intro call hc
              rcases List.mem_singleton.mp hc with rfl
              rfl
        | true =>
          rw [hsub] at h
          simp only [Bool.not_true, if_false] at h
          intro call hc
          obtain ⟨c, hcmem, hfc⟩ := mapME_mem _ charts calls h call hc
          cases hs : hist_series_config cfg cyc c with
          | error e => rw [hs] at hfc; cases hfc
          | ok d =>
            rw [hs] at hfc
            cases hfc
            rfl

/-- Witness for `hist_shared_bins`: a two-series histogram draw with two
configured bins; the single shared-axis call uses the bin edges computed
from the concatenated data of both series. -/
theorem hist_shared_bins_witness :
    (HistCall.shared [[(0 : Int), 20], [10]]
        [⟨0, 2⟩, ⟨20, 2⟩, ⟨40, 2⟩] (PyVal.str "vertical") true []
        (Option.some [PyVal.str "c", PyVal.str "c"])).binsOf =
      binEdges [(0 : Int), 20, 10] 2 := by
  have h := hist_shared_bins
    [("plot.hist.color", PyVal.none), ("plot.hist.alpha", PyVal.none),
     ("plot.hist.fill", PyVal.none), ("plot.hist.hatch", PyVal.none),
     ("plot.hist.zorder", PyVal.none), ("plot.hist.type", PyVal.none),
     ("plot.hist.align", PyVal.none), ("plot.hist.edge.width", PyVal.none),
     ("plot.hist.edge.color", PyVal.none)]
    (fun _ => PyVal.str "c")
    [⟨ChartData.dictForm [("x", [(0 : Int), 20])], [], []⟩,
     ⟨ChartData.dictForm [("x", [(10 : Int)])], [], []⟩]
    ⟨PyVal.bool false, PyVal.none, Option.some (PyVal.int 2), Option.none⟩
    [HistCall.shared [[(0 : Int), 20], [10]]
        [⟨0, 2⟩, ⟨20, 2⟩, ⟨40, 2⟩] (PyVal.str "vertical") true []
        (Option.some [PyVal.str "c", PyVal.str "c"])]
    (by decide)
  obtain ⟨flat, n, hfl, hn, _, hb⟩ := h
  have hfl2 : flat = [(0 : Int), 20, 10] := by
    have h2 := hfl.symm.trans
      (show np_hstack ([⟨ChartData.dictForm [("x", [(0 : Int), 20])], [], []⟩,
        (⟨ChartData.dictForm [("x", [(10 : Int)])], [], []⟩ : HChart)].map
          (fun c => get_chart_data "x" c)) = Except.ok [(0 : Int), 20, 10]
        from by decide)
    simpa using h2
  have hn2 : n = 2 := by
    have h2 := hn.symm.trans
      (show np_bins_count ((Option.some (PyVal.int 2)).getD (PyVal.int 20)) =
        Except.ok 2 from by decide)
    simpa using h2
  rw [hfl2, hn2] at hb
  exact hb _ (List.mem_singleton_self _)

theorem mapME_resolved_color_eq (cfg : PyDict) (cyc : HChart → PyVal) :
    ∀ l : List HChart,
      mapME (resolved_hist_color cfg cyc) l =
      (match mapME (hist_series_config cfg cyc) l with
       | Except.error e => Except.error e
       | Except.ok ds =>
         Except.ok (ds.map (fun d =>
           (List.lookup "color" d).getD PyVal.none))) := by
  intro l
  induction l with
  | nil => rfl
  | cons c cs ih =>
    cases hc : hist_series_config cfg cyc c with
    | error e =>
      simp only [mapME, resolved_hist_color, hc]
    | ok d =>
      simp only [mapME, resolved_hist_color, hc]
      rw [ih]
      cases ht : mapME (hist_series_config cfg cyc) cs with
      | error e => simp
      | ok ds => simp

theorem mapME_head_ok {α β ε : Type} (f : α → Except ε β) :
    ∀ (l : List α) (y : β) (ys : List β),
      mapME f l = Except.ok (y :: ys) →
      ∃ x xs, l = x :: xs ∧ f x = Except.ok y := by
  intro l y ys h
  cases l with
  | nil =>
    simp only [mapME] at h
    cases h
  | cons x xs =>
    refine ⟨x, xs, rfl, ?_⟩
    simp only [mapME] at h
    cases hx : f x with
    | error e => rw [hx] at h; cases h
    | ok y0 =>
      rw [hx] at h
      cases ht : mapME f xs with
      | error e => rw [ht] at h; cases h
      | ok ys0 =>
        rw [ht] at h
        simp only [Except.ok.injEq, List.cons.injEq] at h
        rw [h.1]

/-- Claim C10: in shared-axis histogram mode, all non-color drawing
arguments of the single stacked hist call come solely from the first
series' resolved style mapping: replacing every series after the first by
series with the same primary data and the same per-series resolved colors
leaves the issued call (and the whole draw result) unchanged, so the other
series' styles influence the call only through the per-series color list
(including whether explicit colors are suppressed when a resolved color is
unset). -/
theorem hist_shared_first_style_only :
    ∀ (cfg : PyDict) (cyc : HChart → PyVal) (cc : HistChartConfig)
      (charts charts' : List HChart),
      pyTruthy cc.as_subplots = false →
      charts.head? = charts'.head? →
      charts.map (fun c => get_chart_data "x" c) =
        charts'.map (fun c => get_chart_data "x" c) →
      mapME (resolved_hist_color cfg cyc) charts =
        mapME (resolved_hist_color cfg cyc) charts' →
      draw_hist_chart cfg cyc charts cc = draw_hist_chart cfg cyc charts' cc := by
  intro cfg cyc cc charts charts' hsub hhead hx hcol
  have hmap : ∀ l : List HChart,
      l.map (fun c => (get_chart_data "x" c).getD []) =
      (l.map (fun c => get_chart_data "x" c)).map (fun o => o.getD []) := by
    intro l
    rw [List.map_map]
    rfl
  have hx2 : charts.map (fun c => (get_chart_data "x" c).getD []) =
      charts'.map (fun c => (get_chart_data "x" c).getD []) := by
    rw [hmap, hmap, hx]
  rw [mapME_resolved_color_eq, mapME_resolved_color_eq] at hcol
  simp only [draw_hist_chart]
  rw [hx, hx2]
  cases hh : np_hstack (charts'.map (fun c => get_chart_data "x" c)) with
  | error e => rfl
  | ok flat =>
    cases hb : np_bins_count (cc.n_bins.getD (PyVal.int 20)) with
    | error e => rfl
    | ok n =>
      simp only [hsub, Bool.not_false, if_true]
      cases hm : mapME (hist_series_config cfg cyc) charts with
      | error e =>
        rw [hm] at hcol
        cases hm2 : mapME (hist_series_config cfg cyc) charts' with
        | error e2 =>
          rw [hm2] at hcol
          simp only [Except.error.injEq] at hcol
          rw [hcol]
        | ok ds =>
          rw [hm2] at hcol
          cases hcol
      | ok hcs =>
        rw [hm] at hcol
        cases hm2 : mapME (hist_series_config cfg cyc) charts' with
        | error e2 =>
          rw [hm2] at hcol
          cases hcol
        | ok hcs' =>
          rw [hm2] at hcol
          simp only [Except.ok.injEq] at hcol
          cases hcs with
          | nil =>
            cases hcs' with
            | nil => rfl
            | cons h0' t' => simp at hcol
          | cons h0 t =>
            cases hcs' with
            | nil => simp at hcol
            | cons h0' t' =>
              obtain ⟨c, cs, rfl, hfc⟩ := mapME_head_ok _ charts h0 t hm
              obtain ⟨c', cs', rfl, hfc'⟩ := mapME_head_ok _ charts' h0' t' hm2
              simp only [List.head?_cons, Option.some.injEq] at hhead
              rw [hhead] at hfc
              rw [hfc'] at hfc
              simp only [Except.ok.injEq] at hfc
              subst hfc
              dsimp only
              rw [hcol]

/-- Witness for `hist_shared_first_style_only`: changing the second series'
style (adding a zorder override) while keeping its data and its resolved
color leaves the shared-axis histogram draw unchanged. -/
theorem hist_shared_first_style_only_witness :
    draw_hist_chart
      [("plot.hist.color", PyVal.none), ("plot.hist.alpha", PyVal.none),
       ("plot.hist.fill", PyVal.none), ("plot.hist.hatch", PyVal.none),
       ("plot.hist.zorder", PyVal.none), ("plot.hist.type", PyVal.none),
       ("plot.hist.align", PyVal.none), ("plot.hist.edge.width", PyVal.none),
       ("plot.hist.edge.color", PyVal.none)]
      (fun _ => PyVal.str "k")
      [⟨ChartData.dictForm [("x", [(1 : Int), 4])], [], []⟩,
       ⟨ChartData.dictForm [("x", [(2 : Int)])], [],
        [("plot.hist.color", PyVal.str "red")]⟩]
      ⟨PyVal.bool false, PyVal.none, Option.some (PyVal.int 3), Option.none⟩ =
    draw_hist_chart
      [("plot.hist.color", PyVal.none), ("plot.hist.alpha", PyVal.none),
       ("plot.hist.fill", PyVal.none), ("plot.hist.hatch", PyVal.none),
       ("plot.hist.zorder", PyVal.none), ("plot.hist.type", PyVal.none),
       ("plot.hist.align", PyVal.none), ("plot.hist.edge.width", PyVal.none),
       ("plot.hist.edge.color", PyVal.none)]
      (fun _ => PyVal.str "k")
      [⟨ChartData.dictForm [("x", [(1 : Int), 4])], [], []⟩,
       ⟨ChartData.dictForm [("x", [(2 : Int)])], [],
        [("plot.hist.color", PyVal.str "red"),
         ("plot.hist.zorder", PyVal.int 5)]⟩]
      ⟨PyVal.bool false, PyVal.none, Option.some (PyVal.int 3), Option.none⟩ :=
  hist_shared_first_style_only
    [("plot.hist.color", PyVal.none), ("plot.hist.alpha", PyVal.none),
     ("plot.hist.fill", PyVal.none), ("plot.hist.hatch", PyVal.none),
     ("plot.hist.zorder", PyVal.none), ("plot.hist.type", PyVal.none),
     ("plot.hist.align", PyVal.none), ("plot.hist.edge.width", PyVal.none),
     ("plot.hist.edge.color", PyVal.none)]
    (fun _ => PyVal.str "k")
    ⟨PyVal.bool false, PyVal.none, Option.some (PyVal.int 3), Option.none⟩
    [⟨ChartData.dictForm [("x", [(1 : Int), 4])], [], []⟩,
     ⟨ChartData.dictForm [("x", [(2 : Int)])], [],
      [("plot.hist.color", PyVal.str "red")]⟩]
    [⟨ChartData.dictForm [("x", [(1 : Int), 4])], [], []⟩,
     ⟨ChartData.dictForm [("x", [(2 : Int)])], [],
      [("plot.hist.color", PyVal.str "red"),
       ("plot.hist.zorder", PyVal.int 5)]⟩]
    (by decide) (by decide) (by decide) (by decide)
